import Mathlib

/-!
Shallow embedding of the tee-time booking core of the golf-course-website
repository: the availability route, the booking create/update/cancel routes
and their validation chains, together with the relevant columns of the
tee_times, course_conditions, memberships and admin_settings tables.
Times of day are minutes since midnight; dates are day numbers; instants are
absolute minutes (day * 1440 + minute of day).  Money amounts are rationals.
-/

namespace GolfBooking

/-- Times of day in minutes since midnight; dates are day numbers. -/
abbrev Minutes := Nat

/-- Booking status values allowed by the tee_times CHECK constraint. -/
inductive Status
  | confirmed
  | cancelled
  | no_show
  | completed
deriving DecidableEq

/-- Payment status values allowed by the tee_times CHECK constraint. -/
inductive PaymentStatus
  | pending
  | paid
  | failed
  | refunded
deriving DecidableEq

/-- Green fee type values allowed by the tee_times CHECK constraint
(9_holes and all_day in the source). -/
inductive FeeType
  | nine_holes
  | all_day
deriving DecidableEq

/-- Overall course condition values allowed by the course_conditions CHECK
constraint. -/
inductive OverallCondition
  | excellent
  | good
  | fair
  | poor
  | closed
deriving DecidableEq

/-- One course_conditions row for a date (a per-date override). -/
structure CourseCondition where
  overall_condition : OverallCondition
  holes_available : Nat
deriving DecidableEq

/-- Loop body of the slot generator, on explicit fuel so that it is
structurally recursive: push the current time and step by the interval while
strictly before the close time. -/
def genSlotsGo (interval : Nat) : Nat → Nat → Nat → List Minutes
  | 0, _, _ => []
  | fuel + 1, cur, closeT =>
    if cur < closeT then cur :: genSlotsGo interval fuel (cur + interval) closeT else []

/-- Slot grid generation from the availability route: starting at the open
time, push the current time and step by the interval while strictly before
the close time.  The fuel closeT - openT is never exhausted for a positive
interval (the current time then grows by at least one per iteration), so on
those inputs this equals the source loop; for interval 0 the source loop
does not terminate.  The effective interval is parseInt of the setting with
fallback 15, so positive in every reachable configuration. -/
def genSlots (openT closeT interval : Nat) : List Minutes :=
  genSlotsGo interval (closeT - openT) openT closeT

/-- Conjunct (conditions?.overall_condition !== 'closed') of the availability
route: true when no conditions row exists, since undefined is not 'closed'. -/
def condNotClosed : Option CourseCondition → Bool
  | some c => decide (c.overall_condition ≠ OverallCondition.closed)
  | none => true

/-- Conjunct (conditions?.holes_available > 0) of the availability route:
false when no conditions row exists, since (undefined > 0) is false. -/
def condHolesPositive : Option CourseCondition → Bool
  | some c => decide (0 < c.holes_available)
  | none => false

/-- Availability of one candidate time, from the availability route. -/
def slotAvailable (bookedTimes : List Minutes) (conditions : Option CourseCondition)
    (t : Minutes) : Bool :=
  !bookedTimes.contains t && condNotClosed conditions && condHolesPositive conditions

/-- Whole availability response body (time, available) pairs. -/
def availabilityList (bookedTimes : List Minutes) (conditions : Option CourseCondition)
    (openT closeT interval : Nat) : List (Minutes × Bool) :=
  (genSlots openT closeT interval).map (fun t => (t, slotAvailable bookedTimes conditions t))

/-- Pricing rows read from admin_settings; a value is none when the row is
absent or its value does not parse to a number. -/
structure PricingSettings where
  green_fee_9_holes : Option ℚ
  green_fee_all_day : Option ℚ
  cart_rental_fee : Option ℚ
deriving DecidableEq

/-- JS (parsedValue || fallback): an absent value falls back, and so does a
parsed 0, because 0 is falsy. -/
def effSetting (v : Option ℚ) (fallback : ℚ) : ℚ :=
  match v with
  | some x => if x = 0 then fallback else x
  | none => fallback

/-- Effective per-player green fee: 9-hole rate with fallback 10, all-day
rate with fallback 15, as in the create handler. -/
def greenRate (cfg : PricingSettings) : FeeType → ℚ
  | FeeType.nine_holes => effSetting cfg.green_fee_9_holes 10
  | FeeType.all_day => effSetting cfg.green_fee_all_day 15

/-- Effective cart rental fee with fallback 15, as in the create handler. -/
def cartRate (cfg : PricingSettings) : ℚ :=
  effSetting cfg.cart_rental_fee 15

/-- One tee_times row, restricted to the columns the booking routes read or
write (player names, email, phone and additional_players carry no logic and
are omitted). -/
structure Booking where
  user_id : Option Nat
  booking_date : Nat
  tee_time : Minutes
  number_of_players : Nat
  cart_rental : Bool
  cart_rental_fee : ℚ
  green_fee_type : FeeType
  total_green_fees : ℚ
  total_cart_fees : ℚ
  total_amount : ℚ
  payment_status : PaymentStatus
  status : Status
  cancellation_reason : Option String
  cancelled_at : Option Int
  special_requests : Option String
deriving DecidableEq

/-- A create request body after structural validation (times already parsed
to minutes), plus the optionally authenticated user. -/
structure BookingRequest where
  user : Option Nat
  booking_date : Nat
  tee_time : Minutes
  number_of_players : Nat
  cart_rental : Bool
  green_fee_type : FeeType
  special_requests : Option String
deriving DecidableEq

/-- Predicate of the conflict query: confirmed row at the exact slot. -/
def isConfirmedAt (b : Booking) (d : Nat) (t : Minutes) : Bool :=
  decide (b.booking_date = d ∧ b.tee_time = t ∧ b.status = Status.confirmed)

/-- Rows a conflict query for the slot would return. -/
def filterConfirmedAt (db : List Booking) (d : Nat) (t : Minutes) : List Booking :=
  db.filter (fun b => isConfirmedAt b d t)

/-- Number of confirmed bookings stored for a slot. -/
def confirmedCountAt (db : List Booking) (d : Nat) (t : Minutes) : Nat :=
  (filterConfirmedAt db d t).length

/-- The create handler's conflict check: select ... .single(), which yields a
row exactly when the query matches one row (zero rows and multiple rows both
produce a null data value). -/
def selectSingleConfirmed (db : List Booking) (d : Nat) (t : Minutes) : Option Booking :=
  match filterConfirmedAt db d t with
  | [b] => some b
  | _ => none

/-- Booking row assembled by the create handler: green fee per fee type times
player count, cart fee charged once per booking, payment_status pending and
status confirmed unconditionally. -/
def mkBookingData (cfg : PricingSettings) (r : BookingRequest) : Booking :=
  let greenFee : ℚ := greenRate cfg r.green_fee_type
  let cartFee : ℚ := if r.cart_rental then cartRate cfg else 0
  let totalGreenFees : ℚ := greenFee * (r.number_of_players : ℚ)
  let totalCartFees : ℚ := cartFee
  { user_id := r.user
    booking_date := r.booking_date
    tee_time := r.tee_time
    number_of_players := r.number_of_players
    cart_rental := r.cart_rental
    cart_rental_fee := totalCartFees
    green_fee_type := r.green_fee_type
    total_green_fees := totalGreenFees
    total_cart_fees := totalCartFees
    total_amount := totalGreenFees + totalCartFees
    payment_status := PaymentStatus.pending
    status := Status.confirmed
    cancellation_reason := none
    cancelled_at := none
    special_requests := r.special_requests }

/-- Admission failure: the 409 response of the create handler. -/
inductive AdmissionError
  | alreadyBooked
deriving DecidableEq

/-- The create handler after input validation: conflict check, pricing, then
insert.  The tee_times table has no unique constraint on
(booking_date, tee_time), so the insert itself never rejects a duplicate. -/
def createBooking (cfg : PricingSettings) (db : List Booking) (r : BookingRequest) :
    Except AdmissionError (Booking × List Booking) :=
  if (selectSingleConfirmed db r.booking_date r.tee_time).isSome then
    Except.error AdmissionError.alreadyBooked
  else
    let b := mkBookingData cfg r
    Except.ok (b, db ++ [b])

/-- Booking returned by a successful create, if any. -/
def createdBooking (cfg : PricingSettings) (db : List Booking) (r : BookingRequest) :
    Option Booking :=
  match createBooking cfg db r with
  | Except.ok (b, _) => some b
  | Except.error _ => none

/-- Constructor test for Except values. -/
def isOkE {ε α : Type} : Except ε α → Bool
  | Except.ok _ => true
  | Except.error _ => false

/-- Two admission attempts processed one after the other: the second conflict
check reads the store left by the first attempt. -/
def runSequential2 (cfg : PricingSettings) (db : List Booking) (r1 r2 : BookingRequest) :
    Except AdmissionError Booking × Except AdmissionError Booking × List Booking :=
  match createBooking cfg db r1 with
  | Except.error e1 =>
    match createBooking cfg db r2 with
    | Except.error e2 => (Except.error e1, Except.error e2, db)
    | Except.ok (b2, db2) => (Except.error e1, Except.ok b2, db2)
  | Except.ok (b1, db1) =>
    match createBooking cfg db1 r2 with
    | Except.error e2 => (Except.ok b1, Except.error e2, db1)
    | Except.ok (b2, db2) => (Except.ok b1, Except.ok b2, db2)

/-- Two concurrent admission attempts interleaved so that both conflict
checks read the initial store before either insert runs (each worker executes
the handler's select first, then its insert). -/
def runInterleaved2 (cfg : PricingSettings) (db : List Booking) (r1 r2 : BookingRequest) :
    Except AdmissionError Booking × Except AdmissionError Booking × List Booking :=
  let found1 := (selectSingleConfirmed db r1.booking_date r1.tee_time).isSome
  let found2 := (selectSingleConfirmed db r2.booking_date r2.tee_time).isSome
  let step1 : Except AdmissionError Booking × List Booking :=
    if found1 then (Except.error AdmissionError.alreadyBooked, db)
    else (Except.ok (mkBookingData cfg r1), db ++ [mkBookingData cfg r1])
  let step2 : Except AdmissionError Booking × List Booking :=
    if found2 then (Except.error AdmissionError.alreadyBooked, step1.2)
    else (Except.ok (mkBookingData cfg r2), step1.2 ++ [mkBookingData cfg r2])
  (step1.1, step2.1, step2.2)

/-- Character range test used by the time regex embedding. -/
def charBetween (lo c hi : Char) : Bool :=
  decide (lo ≤ c) && decide (c ≤ hi)

/-- Embedding of the tee_time validator regex
matching one-or-two-digit hours 0..23, a colon, and minutes 00..59. -/
def teeTimeFormatOk (s : String) : Bool :=
  match s.data with
  | [h1, colon, m1, m2] =>
    charBetween '0' h1 '9' && decide (colon = ':') &&
    charBetween '0' m1 '5' && charBetween '0' m2 '9'
  | [h1, h2, colon, m1, m2] =>
    ((charBetween '0' h1 '1' && charBetween '0' h2 '9') ||
      (decide (h1 = '2') && charBetween '0' h2 '3')) &&
    decide (colon = ':') &&
    charBetween '0' m1 '5' && charBetween '0' m2 '9'
  | _ => false

/-- Numeric value of a decimal digit character. -/
def charVal (c : Char) : Nat :=
  c.toNat - '0'.toNat

/-- Minutes since midnight denoted by a well-formed time string. -/
def parseTimeMinutes (s : String) : Option Minutes :=
  match s.data with
  | [h1, _, m1, m2] => some (charVal h1 * 60 + charVal m1 * 10 + charVal m2)
  | [h1, h2, _, m1, m2] =>
    some ((charVal h1 * 10 + charVal h2) * 60 + charVal m1 * 10 + charVal m2)
  | _ => none

/-- Structural parts of the create validation chain that constrain the booking
itself: tee_time format, player count bounds, recognized fee type. -/
def structuralValidationOk (tee_time : String) (number_of_players : Int)
    (green_fee_type : String) : Bool :=
  teeTimeFormatOk tee_time &&
  decide (1 ≤ number_of_players ∧ number_of_players ≤ 4) &&
  (decide (green_fee_type = "9_holes") || decide (green_fee_type = "all_day"))

/-- One memberships row, restricted to the columns the date validator's query
filters on. -/
structure MembershipRow where
  status : String
  end_date : Nat
deriving DecidableEq

/-- The membership query of the date validator: a row with status active and
end_date on or after today. -/
def activeMembershipFound (m : Option MembershipRow) (today : Nat) : Bool :=
  match m with
  | some mm => decide (mm.status = "active") && decide (today ≤ mm.end_date)
  | none => false

/-- JS parseInt(value || fallback) for a stored numeric setting: the fallback
applies before parsing, to an absent row or empty value only, so a stored 0
stays 0.  A non-numeric stored value (parseInt NaN) is not modeled: the only
use is the member branch of resolveMaxAdvanceDays, which postDateValidation
shows is unreachable on the create route. -/
def effNatSetting (v : Option Nat) (fallback : Nat) : Nat :=
  match v with
  | some x => x
  | none => fallback

/-- Advance-window resolution of the date validator: 30 days unless req.user
is set and an active membership row is found, in which case the
member_booking_advance_days setting with fallback 60. -/
def resolveMaxAdvanceDays (reqUser : Option Nat) (membership : Option MembershipRow)
    (memberSetting : Option Nat) (today : Nat) : Nat :=
  match reqUser with
  | none => 30
  | some _ =>
    if activeMembershipFound membership today then effNatSetting memberSetting 60 else 30

/-- Rejections of the booking_date validator. -/
inductive DateError
  | pastDate
  | tooFarAhead (limit : Nat)
deriving DecidableEq

/-- Date checks of the booking_date validator, on absolute minutes: the
booking date denotes its midnight, today denotes the current day's midnight,
and the advance limit is now plus maxDays days with the time of day kept. -/
def validateBookingDate (d curDay nowMin maxDays : Nat) : Option DateError :=
  if d * 1440 < curDay * 1440 then
    some DateError.pastDate
  else if curDay * 1440 + nowMin + maxDays * 1440 < d * 1440 then
    some (DateError.tooFarAhead maxDays)
  else
    none

/-- Date validation as the create route executes it: the validation chain is
listed before optionalAuth in router.post, so req.user is still unset when
the validator runs, whatever credentials the caller sent; the validator
therefore resolves the window with user = none. -/
def postDateValidation (membership : Option MembershipRow) (memberSetting : Option Nat)
    (_authUser : Option Nat) (d curDay nowMin : Nat) : Option DateError :=
  validateBookingDate d curDay nowMin (resolveMaxAdvanceDays none membership memberSetting curDay)

/-- Absolute minutes of a booking's tee date-time. -/
def teeDateTime (b : Booking) : Int :=
  (b.booking_date : Int) * 1440 + (b.tee_time : Int)

/-- Truncation toward zero of x / k, the semantics of moment diff in hours
(on whole-minute instants). -/
def truncDiv (x : Int) (k : Nat) : Int :=
  if 0 ≤ x then ((x.toNat / k : Nat) : Int) else -(((((-x).toNat) / k : Nat) : Int))

/-- Rejections of the cancel route. -/
inductive CancelError
  | notAuthorized
  | tooLateToCancel
deriving DecidableEq

/-- The cancel route after the row is found: ownership-or-admin check, then
the 24-hour notice check on truncated hours, then a status update to
cancelled stamping cancelled_at and the reason; the row is never deleted. -/
def cancelBooking (b : Booking) (callerId : Nat) (callerIsAdmin : Bool) (now : Int)
    (reason : Option String) : Except CancelError Booking :=
  if !(decide (b.user_id = some callerId) || callerIsAdmin) then
    Except.error CancelError.notAuthorized
  else if truncDiv (teeDateTime b - now) 60 < 24 then
    Except.error CancelError.tooLateToCancel
  else
    Except.ok { b with
      status := Status.cancelled
      cancellation_reason := reason
      cancelled_at := some now }

/-- A PUT body as the update route forwards it to the store: the handler
passes req.body straight to the update, so any tee_times column may appear,
not only the three fields the validation chain mentions (values outside the
column CHECK constraints would be refused by the store and are not modeled;
columns carrying no logic are omitted as in Booking). -/
structure UpdatePatch where
  cart_rental : Option Bool := none
  special_requests : Option String := none
  status : Option Status := none
  payment_status : Option PaymentStatus := none
  total_green_fees : Option ℚ := none
  total_cart_fees : Option ℚ := none
  cart_rental_fee : Option ℚ := none
  total_amount : Option ℚ := none
deriving DecidableEq

/-- Raw admin_settings value as the update route reads it: absent covers both
a missing row and an empty (falsy) value string, numeric a non-empty value
that parses as a number - a stored 0 included - and nonNumeric a non-empty
value that parseFloat cannot parse. -/
inductive SettingValue
  | absent
  | numeric (q : ℚ)
  | nonNumeric
deriving DecidableEq

/-- parseFloat(cartFeeData?.setting_value || 15) of the update route: the
fallback applies before parsing, so only an absent or empty value gives 15
and a stored 0 parses to 0; a non-numeric value parses to NaN, modeled as
none - the handler then writes NaN-bred nulls and the store rejects the
update. -/
def updateCartFee : SettingValue → Option ℚ
  | SettingValue.absent => some 15
  | SettingValue.numeric q => some q
  | SettingValue.nonNumeric => none

/-- Cart-fee fields the update route writes into the patch when cart_rental
is present in the body: cart_rental_fee, total_cart_fees and total_amount
computed from the stored total_green_fees and the resolved fee, overwriting
any client-supplied values for those three columns. -/
def cartFeeFields (fee : ℚ) (old : Booking) (p : UpdatePatch) : UpdatePatch :=
  { p with
    cart_rental_fee := some fee
    total_cart_fees := some fee
    total_amount := some (old.total_green_fees + fee) }

/-- Store-side application of a patch: each column present in the patch
overwrites the stored value. -/
def applyPatch (b : Booking) (p : UpdatePatch) : Booking :=
  { b with
    cart_rental := p.cart_rental.getD b.cart_rental
    special_requests := (p.special_requests.map some).getD b.special_requests
    status := p.status.getD b.status
    payment_status := p.payment_status.getD b.payment_status
    total_green_fees := p.total_green_fees.getD b.total_green_fees
    total_cart_fees := p.total_cart_fees.getD b.total_cart_fees
    cart_rental_fee := p.cart_rental_fee.getD b.cart_rental_fee
    total_amount := p.total_amount.getD b.total_amount }

/-- Rejections of the update route: storeRejected is the Failed-to-update
500 path, reached when a NaN cart fee is written. -/
inductive UpdateError
  | notAuthorized
  | tooCloseToTeeTime
  | storeRejected
deriving DecidableEq

/-- The update route after the row is found: ownership-or-admin check, the
24-hour modification check on truncated hours, cart-fee recomputation when
cart_rental is in the body (the parsed fee applies only when the cart is
rented, the ternary yielding 0 otherwise even for a NaN parse), then the
store update, which fails when the written fee is NaN. -/
def updateBooking (cartFeeSetting : SettingValue) (b : Booking) (callerId : Nat)
    (callerIsAdmin : Bool) (now : Int) (p : UpdatePatch) : Except UpdateError Booking :=
  if !(decide (b.user_id = some callerId) || callerIsAdmin) then
    Except.error UpdateError.notAuthorized
  else if truncDiv (teeDateTime b - now) 60 < 24 then
    Except.error UpdateError.tooCloseToTeeTime
  else
    match p.cart_rental with
    | none => Except.ok (applyPatch b p)
    | some c =>
      match (if c then updateCartFee cartFeeSetting else some 0) with
      | some fee => Except.ok (applyPatch b (cartFeeFields fee b p))
      | none => Except.error UpdateError.storeRejected

/-- Booking returned by a successful update, if any. -/
def updatedBooking (cartFeeSetting : SettingValue) (b : Booking) (callerId : Nat)
    (callerIsAdmin : Bool) (now : Int) (p : UpdatePatch) : Option Booking :=
  match updateBooking cartFeeSetting b callerId callerIsAdmin now p with
  | Except.ok b2 => some b2
  | Except.error _ => none

/-- Cancellation-notice predicate in the spec's words: now lies within
cancellationHours of the booking's tee date-time (used to compare the spec's
configurable window against the route's behavior). -/
def specWithinCancelWindow (cancellationHours : Nat) (teeAbs now : Int) : Bool :=
  decide (0 ≤ teeAbs - now) && decide (teeAbs - now < (cancellationHours : Int) * 60)

/-- Pricing settings as seeded by the schema: 10.00, 15.00, 15.00. -/
def cfgDefaults : PricingSettings :=
  { green_fee_9_holes := some 10, green_fee_all_day := some 15, cart_rental_fee := some 15 }

/-- A guest create request for day 100 at 09:00 (540 minutes). -/
def reqA : BookingRequest :=
  { user := none, booking_date := 100, tee_time := 540, number_of_players := 2,
    cart_rental := false, green_fee_type := FeeType.nine_holes, special_requests := none }

/-- A second request for the same slot from a logged-in caller, with a cart. -/
def reqB : BookingRequest :=
  { user := some 5, booking_date := 100, tee_time := 540, number_of_players := 3,
    cart_rental := true, green_fee_type := FeeType.nine_holes, special_requests := none }

/-- Pricing settings with a negative all-day rate, as parseFloat accepts. -/
def cfgNegRate : PricingSettings :=
  { green_fee_9_holes := some 10, green_fee_all_day := some (-15), cart_rental_fee := some 15 }

/-- A one-player all-day request with cart under cfgNegRate: total comes to 0. -/
def reqZeroTotal : BookingRequest :=
  { user := none, booking_date := 100, tee_time := 600, number_of_players := 1,
    cart_rental := true, green_fee_type := FeeType.all_day, special_requests := none }

/-- A conditions row marking the date closed. -/
def condClosed : Option CourseCondition :=
  some { overall_condition := OverallCondition.closed, holes_available := 9 }

/-- A stored confirmed booking owned by user 1, day 100 at 09:00. -/
def bOwned : Booking :=
  { user_id := some 1, booking_date := 100, tee_time := 540, number_of_players := 2,
    cart_rental := false, cart_rental_fee := 0, green_fee_type := FeeType.nine_holes,
    total_green_fees := 20, total_cart_fees := 0, total_amount := 20,
    payment_status := PaymentStatus.pending, status := Status.confirmed,
    cancellation_reason := none, cancelled_at := none, special_requests := none }

/-- The same stored booking after a cancellation. -/
def bCancelled : Booking :=
  { bOwned with status := Status.cancelled, cancelled_at := some 0 }

/-- A PUT body carrying only a status field. -/
def patchStatusConfirmed : UpdatePatch :=
  { status := some Status.confirmed }

/-- A PUT body toggling the cart and overriding total_green_fees. -/
def patchCartAndGreen : UpdatePatch :=
  { cart_rental := some true, total_green_fees := some 999 }

/-- A PUT body toggling only the cart. -/
def patchCartOnly : UpdatePatch :=
  { cart_rental := some true }

theorem filterConfirmedAt_append (db1 db2 : List Booking) (d : Nat) (t : Minutes) :
    filterConfirmedAt (db1 ++ db2) d t = filterConfirmedAt db1 d t ++ filterConfirmedAt db2 d t :=
  List.filter_append _ _

theorem isConfirmedAt_mkBookingData (cfg : PricingSettings) (r : BookingRequest) :
    isConfirmedAt (mkBookingData cfg r) r.booking_date r.tee_time = true := by
  simp [isConfirmedAt, mkBookingData]

theorem matchSingle_isSome_iff (l : List Booking) :
    (match l with
      | [b] => some b
      | _ => (none : Option Booking)).isSome = true ↔ l.length = 1 := by
  match l with
  | [] => simp
  | [b] => simp
  | b :: b2 :: rest => simp

theorem selectSingleConfirmed_isSome_iff (db : List Booking) (d : Nat) (t : Minutes) :
    (selectSingleConfirmed db d t).isSome = true ↔ confirmedCountAt db d t = 1 := by
  unfold selectSingleConfirmed confirmedCountAt
  exact matchSingle_isSome_iff _

theorem truncDiv60_lt_24_iff (x : Int) : truncDiv x 60 < 24 ↔ x < 1440 := by
  unfold truncDiv
  by_cases hx : 0 ≤ x <;> simp [hx] <;> omega

/-- C1 (counterexample): two concurrent admission attempts for the same free
slot, each running the handler's conflict select before either insert
commits, both succeed and leave two confirmed bookings for the slot; the
check-then-insert pair is not atomic and the table has no unique constraint
on the slot. -/
theorem c1_interleaved_double_booking :
    isOkE (runInterleaved2 cfgDefaults [] reqA reqB).1 = true ∧
    isOkE (runInterleaved2 cfgDefaults [] reqA reqB).2.1 = true ∧
    confirmedCountAt (runInterleaved2 cfgDefaults [] reqA reqB).2.2 100 540 = 2 := by
  decide

/-- C1 (amended): when two admission attempts for the same slot are processed
sequentially, starting from a store with no confirmed booking at the slot,
the first succeeds, the second is rejected with the 409 AlreadyBooked error,
and exactly one confirmed booking for the slot is stored. -/
theorem c1_sequential_single_winner (cfg : PricingSettings) (db : List Booking)
    (r1 r2 : BookingRequest) (hd : r2.booking_date = r1.booking_date)
    (ht : r2.tee_time = r1.tee_time)
    (hfree : confirmedCountAt db r1.booking_date r1.tee_time = 0) :
    isOkE (runSequential2 cfg db r1 r2).1 = true ∧
    (runSequential2 cfg db r1 r2).2.1 = Except.error AdmissionError.alreadyBooked ∧
    confirmedCountAt (runSequential2 cfg db r1 r2).2.2 r1.booking_date r1.tee_time = 1 := by
  have hnil : filterConfirmedAt db r1.booking_date r1.tee_time = [] :=
    List.length_eq_zero.mp hfree
  have hsel1 : selectSingleConfirmed db r1.booking_date r1.tee_time = none := by
    simp [selectSingleConfirmed, hnil]
  have hc1 : createBooking cfg db r1 =
      Except.ok (mkBookingData cfg r1, db ++ [mkBookingData cfg r1]) := by
    simp [createBooking, hsel1]
  have hfil1 : filterConfirmedAt (db ++ [mkBookingData cfg r1]) r1.booking_date r1.tee_time =
      [mkBookingData cfg r1] := by
    rw [filterConfirmedAt_append, hnil]
    simp [filterConfirmedAt, isConfirmedAt_mkBookingData]
  have hsel2 : selectSingleConfirmed (db ++ [mkBookingData cfg r1])
      r2.booking_date r2.tee_time = some (mkBookingData cfg r1) := by
    rw [hd, ht]
    simp [selectSingleConfirmed, hfil1]
  have hc2 : createBooking cfg (db ++ [mkBookingData cfg r1]) r2 =
      Except.error AdmissionError.alreadyBooked := by
    simp [createBooking, hsel2]
  refine ⟨?_, ?_, ?_⟩
  · simp [runSequential2, hc1, hc2, isOkE]
  · simp [runSequential2, hc1, hc2]
  · simp [runSequential2, hc1, hc2, confirmedCountAt, hfil1]

/-- C1 (witness): the sequential guarantee at the concrete store and
requests of the counterexample. -/
theorem c1_sequential_single_winner_witness :
    reqB.booking_date = reqA.booking_date ∧ reqB.tee_time = reqA.tee_time ∧
    confirmedCountAt ([] : List Booking) reqA.booking_date reqA.tee_time = 0 ∧
    (isOkE (runSequential2 cfgDefaults [] reqA reqB).1 = true ∧
      (runSequential2 cfgDefaults [] reqA reqB).2.1 =
        Except.error AdmissionError.alreadyBooked ∧
      confirmedCountAt (runSequential2 cfgDefaults [] reqA reqB).2.2
        reqA.booking_date reqA.tee_time = 1) :=
  ⟨by decide, by decide, by decide,
    c1_sequential_single_winner cfgDefaults [] reqA reqB (by decide) (by decide) (by decide)⟩

/-- C2 (code evaluation at the failing input): on a date with no
course_conditions row and no bookings, under the schema's default window
07:00 to 19:00 every 15 minutes, the availability route reports every one of
the 48 generated slots unavailable, because the JS comparison
(undefined > 0) is false; the claim and the route's own response defaults
(condition good, 9 holes) say such a date is default-open. -/
theorem c2_no_override_all_unavailable :
    slotAvailable [] none 420 = false ∧
    (availabilityList [] none 420 1140 15).all (fun p => !p.2) = true ∧
    (availabilityList [] none 420 1140 15).length = 48 := by
  decide

/-- C3 (counterexample): with a conditions row closing the date and an empty
booking store, the requested 09:00 slot is unavailable per the availability
calculator, yet admission succeeds instead of rejecting with AlreadyBooked:
the create handler never consults course conditions. -/
theorem c3_closed_override_still_admitted :
    slotAvailable [] condClosed 540 = false ∧
    isOkE (createBooking cfgDefaults [] reqA) = true := by
  decide

/-- C3 (amended): the create handler rejects with the single AlreadyBooked
409 error exactly when its conflict query matches one stored confirmed
booking at the requested slot; course-condition overrides play no part in
admission (createBooking takes no conditions input), and the single-row
check also passes when more than one confirmed booking already occupies the
slot. -/
theorem c3_admission_conflict_characterization (cfg : PricingSettings) (db : List Booking)
    (r : BookingRequest) :
    createBooking cfg db r = Except.error AdmissionError.alreadyBooked ↔
      confirmedCountAt db r.booking_date r.tee_time = 1 := by
  rw [← selectSingleConfirmed_isSome_iff]
  unfold createBooking
  by_cases hs : (selectSingleConfirmed db r.booking_date r.tee_time).isSome = true
  · simp [hs]
  · simp [hs]

/-- C4 (counterexample): the tee_time string 07:07 passes the create
validation chain together with a player count of 2 and fee type 9_holes,
yet 07:07 (427 minutes) does not lie on the default slot grid 07:00 to
19:00 step 15: validation does not reject non-aligned times. -/
theorem c4_non_aligned_time_accepted :
    structuralValidationOk "07:07" 2 "9_holes" = true ∧
    parseTimeMinutes "07:07" = some 427 ∧
    (genSlots 420 1140 15).contains 427 = false := by
  decide

/-- C4 (amended): the structural validation accepts a request exactly when
the tee_time string is a well-formed HH:MM clock time, the player count lies
in [1,4] and the fee type is one of the two recognized values; alignment to
the operating window's slot grid is not checked. -/
theorem c4_validation_characterization (tee : String) (players : Int) (fee : String) :
    structuralValidationOk tee players fee = true ↔
      (teeTimeFormatOk tee = true ∧ (1 ≤ players ∧ players ≤ 4) ∧
        (fee = "9_holes" ∨ fee = "all_day")) := by
  simp [structuralValidationOk, and_assoc]

/-- C5 (counterexample): under a configuration whose all-day rate parses to
-15 (parseFloat accepts negative settings), a one-player all-day booking
with a cart totals 0, yet the created booking carries payment_status
pending, not paid. -/
theorem c5_zero_total_still_pending :
    (createdBooking cfgNegRate [] reqZeroTotal).map
        (fun b => (b.total_amount, b.payment_status, b.status)) =
      some (0, PaymentStatus.pending, Status.confirmed) := by
  have hcb : createdBooking cfgNegRate [] reqZeroTotal =
      some (mkBookingData cfgNegRate reqZeroTotal) := rfl
  rw [hcb]
  simp [mkBookingData, greenRate, cartRate, effSetting, cfgNegRate, reqZeroTotal]

/-- C5 (amended): every booking emitted by a successful admission has
status confirmed and payment_status pending, whatever its total amount; the
(totalAmount > 0) test only drives the payment_required response flag. -/
theorem c5_created_status_and_payment (cfg : PricingSettings) (db : List Booking)
    (r : BookingRequest) (b : Booking) (db2 : List Booking)
    (h : createBooking cfg db r = Except.ok (b, db2)) :
    b.status = Status.confirmed ∧ b.payment_status = PaymentStatus.pending := by
  unfold createBooking at h
  split at h
  · exact absurd h (by simp)
  · simp only [Except.ok.injEq, Prod.mk.injEq] at h
    obtain ⟨hb, -⟩ := h
    subst hb
    constructor <;> rfl

/-- C5 (witness): the amended statement at the default configuration and the
concrete guest request. -/
theorem c5_created_status_and_payment_witness :
    createBooking cfgDefaults [] reqA =
      Except.ok (mkBookingData cfgDefaults reqA, [mkBookingData cfgDefaults reqA]) ∧
    ((mkBookingData cfgDefaults reqA).status = Status.confirmed ∧
      (mkBookingData cfgDefaults reqA).payment_status = PaymentStatus.pending) :=
  ⟨rfl, c5_created_status_and_payment cfgDefaults [] reqA (mkBookingData cfgDefaults reqA)
    [mkBookingData cfgDefaults reqA] rfl⟩

/-- C6: every booking emitted by a successful admission is priced as the
effective per-player green fee for its fee type times the player count, plus
the effective cart fee charged once per booking when a cart is rented and 0
otherwise, with the effective rates read from the pricing configuration
passed to the handler at commit time. -/
theorem c6_pricing_additivity (cfg : PricingSettings) (db : List Booking)
    (r : BookingRequest) (b : Booking) (db2 : List Booking)
    (h : createBooking cfg db r = Except.ok (b, db2)) :
    b.total_green_fees = greenRate cfg r.green_fee_type * (r.number_of_players : ℚ) ∧
    b.total_cart_fees = (if r.cart_rental then cartRate cfg else 0) ∧
    b.total_amount =
      greenRate cfg r.green_fee_type * (r.number_of_players : ℚ) +
        (if r.cart_rental then cartRate cfg else 0) := by
  unfold createBooking at h
  split at h
  · exact absurd h (by simp)
  · simp only [Except.ok.injEq, Prod.mk.injEq] at h
    obtain ⟨hb, -⟩ := h
    subst hb
    refine ⟨rfl, rfl, rfl⟩

/-- C6 (witness): the pricing identity at the default configuration for a
three-player nine-hole booking with a cart. -/
theorem c6_pricing_additivity_witness :
    createBooking cfgDefaults [] reqB =
      Except.ok (mkBookingData cfgDefaults reqB, [mkBookingData cfgDefaults reqB]) ∧
    ((mkBookingData cfgDefaults reqB).total_green_fees =
        greenRate cfgDefaults reqB.green_fee_type * (reqB.number_of_players : ℚ) ∧
      (mkBookingData cfgDefaults reqB).total_cart_fees =
        (if reqB.cart_rental then cartRate cfgDefaults else 0) ∧
      (mkBookingData cfgDefaults reqB).total_amount =
        greenRate cfgDefaults reqB.green_fee_type * (reqB.number_of_players : ℚ) +
          (if reqB.cart_rental then cartRate cfgDefaults else 0)) :=
  ⟨rfl, c6_pricing_additivity cfgDefaults [] reqB (mkBookingData cfgDefaults reqB)
    [mkBookingData cfgDefaults reqB] rfl⟩

/-- C7 (code evaluation at the failing input): the validation chain is
listed before optionalAuth on the create route, so the date validator runs
with req.user unset and resolves the 30-day guest window for every caller;
a request for today plus 31 days is rejected with the 30-day limit in the
error message even when the caller holds an active membership, whatever the
member_booking_advance_days setting says. -/
theorem c7_member_window_never_applies (membership : Option MembershipRow)
    (memberSetting : Option Nat) (authUser : Option Nat) (curDay nowMin : Nat)
    (hnow : nowMin < 1440) :
    postDateValidation membership memberSetting authUser (curDay + 31) curDay nowMin =
      some (DateError.tooFarAhead 30) := by
  have h1 : ¬ ((curDay + 31) * 1440 < curDay * 1440) := by omega
  have h2 : curDay * 1440 + nowMin + 30 * 1440 < (curDay + 31) * 1440 := by omega
  simp [postDateValidation, resolveMaxAdvanceDays, validateBookingDate, h1, h2]

/-- C7 (witness): the rejection for a caller holding an active membership
with a far-future end date, at day 100, 10:00, with the member setting
absent (fallback 60) - the 30-day limit is still the one applied. -/
theorem c7_member_window_never_applies_witness :
    activeMembershipFound (some { status := "active", end_date := 1000000 }) 100 = true ∧
    600 < 1440 ∧
    postDateValidation (some { status := "active", end_date := 1000000 }) none (some 7)
        (100 + 31) 100 600 = some (DateError.tooFarAhead 30) :=
  ⟨by decide, by decide,
    c7_member_window_never_applies (some { status := "active", end_date := 1000000 })
      none (some 7) 100 600 (by decide)⟩

/-- C8 (counterexample): with the cancellation_hours setting at 48 (the
admin_settings table stores it and admins may change it), an owner's
cancellation 2820 minutes (47 hours) before tee time lies within the
configured notice window, yet the cancel route accepts it: the route
hard-codes 24 hours and never reads the setting. -/
theorem c8_configured_window_ignored :
    specWithinCancelWindow 48 (teeDateTime bOwned) (teeDateTime bOwned - 2820) = true ∧
    isOkE (cancelBooking bOwned 1 false (teeDateTime bOwned - 2820) none) = true := by
  decide

/-- C8 (amended): for an authorized caller the cancel route rejects with
TooLateToCancel whenever less than 24 hours (1440 minutes) remain before the
booking's tee date-time - in particular at 24 hours minus one minute - and
accepts any attempt at least 24 hours out - in particular at 24 hours plus
one minute - transitioning status to cancelled and stamping cancelled_at
with the current instant while keeping the record; the 24-hour window is
fixed in the route, not read from the cancellation_hours setting. -/
theorem c8_fixed_24h_window (b : Booking) (callerId : Nat) (callerIsAdmin : Bool)
    (now : Int) (reason : Option String)
    (hauth : b.user_id = some callerId ∨ callerIsAdmin = true) :
    (teeDateTime b - now < 1440 →
      cancelBooking b callerId callerIsAdmin now reason =
        Except.error CancelError.tooLateToCancel) ∧
    (1440 ≤ teeDateTime b - now →
      cancelBooking b callerId callerIsAdmin now reason =
        Except.ok { b with
          status := Status.cancelled
          cancellation_reason := reason
          cancelled_at := some now }) := by
  have hA : (!(decide (b.user_id = some callerId) || callerIsAdmin)) = false := by
    rcases hauth with h | h <;> simp [h]
  constructor <;> intro h
  · have hw : truncDiv (teeDateTime b - now) 60 < 24 := (truncDiv60_lt_24_iff _).mpr h
    simp [cancelBooking, hA, hw]
  · have hw : ¬ truncDiv (teeDateTime b - now) 60 < 24 := by
      rw [truncDiv60_lt_24_iff]
      omega
    simp [cancelBooking, hA, hw]

/-- C8 (witness): the boundary instants for the stored confirmed booking:
1439 minutes before tee time the cancellation is rejected, 1441 minutes
before it succeeds with status cancelled and cancelled_at stamped. -/
theorem c8_fixed_24h_window_witness :
    (bOwned.user_id = some 1 ∨ false = true) ∧
    cancelBooking bOwned 1 false (teeDateTime bOwned - 1439) none =
      Except.error CancelError.tooLateToCancel ∧
    cancelBooking bOwned 1 false (teeDateTime bOwned - 1441) none =
      Except.ok { bOwned with
        status := Status.cancelled
        cancellation_reason := none
        cancelled_at := some (teeDateTime bOwned - 1441) } :=
  ⟨Or.inl rfl,
    (c8_fixed_24h_window bOwned 1 false (teeDateTime bOwned - 1439) none (Or.inl rfl)).1
      (by decide),
    (c8_fixed_24h_window bOwned 1 false (teeDateTime bOwned - 1441) none (Or.inl rfl)).2
      (by decide)⟩

/-- C9 (code evaluation at the failing input): the update route forwards the
whole request body to the store, so a PUT carrying a status field, sent by
the owner of a cancelled booking whose tee time is more than 24 hours away,
moves the booking back to confirmed: cancelled is not terminal and the
status state machine is not enforced. -/
theorem c9_cancelled_back_to_confirmed :
    bCancelled.status = Status.cancelled ∧
    (updatedBooking (SettingValue.numeric 15) bCancelled 1 false 0 patchStatusConfirmed).map
        (fun b => b.status) = some Status.confirmed := by
  constructor
  · rfl
  · rfl

/-- C10 (counterexample): a PUT body carrying cart_rental together with a
total_green_fees value overwrites the stored green fees (999 replacing 20)
while total_amount is recomputed from the old stored green fees (20 + 15),
so the claim's frame condition on total_green_fees fails for such requests. -/
theorem c10_green_fee_override :
    bOwned.total_green_fees = 20 ∧
    (updatedBooking (SettingValue.numeric 15) bOwned 1 false 0 patchCartAndGreen).map
        (fun b => (b.total_green_fees, b.total_amount)) = some (999, 35) := by
  constructor
  · rfl
  · have hu : updatedBooking (SettingValue.numeric 15) bOwned 1 false 0 patchCartAndGreen =
        some (applyPatch bOwned (cartFeeFields 15 bOwned patchCartAndGreen)) := rfl
    rw [hu]
    simp [applyPatch, cartFeeFields, bOwned, patchCartAndGreen]
    norm_num

/-- C10 (amended): for every update request that includes cart_rental but no
total_green_fees field, passes the authorization and 24-hour checks, and
reaches a successful store write (the resolved fee is the value of
parseFloat(setting || 15) when the cart is rented - a stored 0 giving 0, an
absent or empty setting giving 15, a non-numeric setting failing the update
instead - and 0 when it is not), the stored total_green_fees is left
unchanged and total_amount is recomputed as the pre-update total_green_fees
plus that fee, any client-supplied total_amount or cart fee fields being
overwritten; green fees are never re-priced on update. -/
theorem c10_cart_update_pricing (cartFeeSetting : SettingValue) (b : Booking)
    (callerId : Nat) (adm : Bool) (now : Int) (p : UpdatePatch) (c : Bool) (fee : ℚ)
    (b2 : Booking)
    (hc : p.cart_rental = some c) (hg : p.total_green_fees = none)
    (hfee : (if c then updateCartFee cartFeeSetting else some 0) = some fee)
    (h : updateBooking cartFeeSetting b callerId adm now p = Except.ok b2) :
    b2.total_green_fees = b.total_green_fees ∧
    b2.total_cart_fees = fee ∧
    b2.total_amount = b.total_green_fees + fee := by
  unfold updateBooking at h
  split at h
  · exact absurd h (by simp)
  · split at h
    · exact absurd h (by simp)
    · simp only [hc, hfee, Except.ok.injEq] at h
      subst h
      simp [applyPatch, cartFeeFields, hg]

/-- C10 (witness): the amended statement for the stored booking and a PUT
body toggling only the cart, at the seeded cart fee setting of 15. -/
theorem c10_cart_update_pricing_witness :
    patchCartOnly.cart_rental = some true ∧
    patchCartOnly.total_green_fees = none ∧
    (if true then updateCartFee (SettingValue.numeric 15) else some 0) = some 15 ∧
    updateBooking (SettingValue.numeric 15) bOwned 1 false 0 patchCartOnly =
      Except.ok (applyPatch bOwned (cartFeeFields 15 bOwned patchCartOnly)) ∧
    ((applyPatch bOwned (cartFeeFields 15 bOwned patchCartOnly)).total_green_fees =
        bOwned.total_green_fees ∧
      (applyPatch bOwned (cartFeeFields 15 bOwned patchCartOnly)).total_cart_fees = 15 ∧
      (applyPatch bOwned (cartFeeFields 15 bOwned patchCartOnly)).total_amount =
        bOwned.total_green_fees + 15) :=
  ⟨rfl, rfl, rfl, rfl,
    c10_cart_update_pricing (SettingValue.numeric 15) bOwned 1 false 0 patchCartOnly true 15
      (applyPatch bOwned (cartFeeFields 15 bOwned patchCartOnly)) rfl rfl rfl rfl⟩

end GolfBooking
